import Mathlib

/-!
Verification of the course recommendation engine: a shallow embedding of
the selector, ranker, assembler, cache and reason generator, followed by
theorems settling the specification claims.

Conventions of the embedding:
* Python strings are Lean `String` (the inputs at issue are ASCII);
  `str.lower()` is `pyLower`, `str.strip()` is `pyStrip`, and the Python
  substring test `needle in hay` is `pyContains hay needle`.
* Python dicts preserve insertion order, so the course catalog is a
  `List Course`; the two inverted indexes are association lists whose
  values are id lists (the Python sets are only ever used through
  membership, which the lists model faithfully).
* Python floats carry the relevance scores; every score is a small exact
  value (sums of 5, 3, 1, 0.5 and level/200), so scores are embedded as `ℚ`.
* `list.sort(key=..., reverse=True)` is a stable descending sort, embedded
  as the (unique) stable insertion sort `pySortDesc`.
-/

/-- The character-list version of Python's `str.startswith`. -/
def charsStart : List Char → List Char → Bool
  | _, [] => true
  | [], _ :: _ => false
  | a :: as, b :: bs => a == b && charsStart as bs

/-- The character-list version of Python's substring test `needle in hay`. -/
def charsContain : List Char → List Char → Bool
  | l, pat =>
    charsStart l pat ||
      match l with
      | [] => false
      | _ :: as => charsContain as pat

/-- Python's `needle in hay` on strings (true when `needle` is empty, as in Python). -/
def pyContains (hay needle : String) : Bool :=
  charsContain hay.data needle.data

/-- Python's `str.lower()` (ASCII, which covers all catalog data at issue). -/
def pyLower (s : String) : String :=
  ⟨s.data.map Char.toLower⟩

/-- Python's `str.strip()`: drop whitespace from both ends. -/
def pyStrip (s : String) : String :=
  ⟨((s.data.dropWhile Char.isWhitespace).reverse.dropWhile Char.isWhitespace).reverse⟩

/-- The normalisation `x.lower().strip()` applied to career and skill tags. -/
def pyNorm (s : String) : String :=
  pyStrip (pyLower s)

/-- The `Course` dataclass of `models/base.py`.  Credits are parsed by
`clean_credits_string`, which strips every character but digits and dots
before parsing, so they are non-negative (`ℕ`); the level is an `int`
(non-negative in all data the loader admits, `ℕ` here). -/
structure Course where
  course_id : String
  title : String
  description : String
  credits : ℕ
  department : String
  level : ℕ
  skills_taught : List String
  career_relevance : List String
  prerequisites : Option (List String) := none
  terms_offered : Option (List String) := none
  available_slots : Option (List (String × ℕ)) := none
  deriving DecidableEq, BEq, Repr

/-- A formatted recommendation record `{course_id, title, credits, reason}`. -/
structure FRec where
  course_id : String
  title : String
  credits : ℕ
  reason : String
  deriving DecidableEq, BEq, Repr

/-- The `CourseSelector` state: the catalog dict (insertion order) and the
two inverted indexes `career_goal_mapping` and `subject_mapping`. -/
structure Selector where
  courses : List Course
  career_goal_mapping : List (String × List String)
  subject_mapping : List (String × List String)
  deriving DecidableEq, Repr

/-- The empty `CourseSelector()`. -/
def emptySelector : Selector :=
  ⟨[], [], []⟩

/-- `mapping.setdefault(key, set()).add(id)`: ensure the key exists and add
the id to its value set (ids are kept as a duplicate-free list). -/
def mapInsert (m : List (String × List String)) (key id : String) :
    List (String × List String) :=
  if m.any (fun kv => kv.1 == key) then
    m.map (fun kv => if kv.1 == key then (kv.1, if kv.2.contains id then kv.2 else kv.2 ++ [id]) else kv)
  else
    m ++ [(key, [id])]

/-- Value-set lookup in an inverted index: the id list stored under a key,
empty when the key is absent. -/
def mapFind (m : List (String × List String)) (key : String) : List String :=
  match m.find? (fun kv => kv.1 == key) with
  | some kv => kv.2
  | none => []

/-- `CourseSelector.add_course`: insert only when the id is non-empty and not
already present, then index every normalised career tag and skill tag. -/
def add_course (sel : Selector) (c : Course) : Selector :=
  if c.course_id != "" && !(sel.courses.any (fun c0 => c0.course_id == c.course_id)) then
    { courses := sel.courses ++ [c]
      career_goal_mapping :=
        c.career_relevance.foldl
          (fun m career =>
            let k := pyNorm career
            if k != "" then mapInsert m k c.course_id else m)
          sel.career_goal_mapping
      subject_mapping :=
        c.skills_taught.foldl
          (fun m skill =>
            let k := pyNorm skill
            if k != "" then mapInsert m k c.course_id else m)
          sel.subject_mapping }
  else
    sel

/-- A selector built by calling `add_course` on each course in turn. -/
def mkSelector (cs : List Course) : Selector :=
  cs.foldl add_course emptySelector

/-- Membership in the set returned by `CourseSelector._match_career_goals`
(the set is only ever used through `course.course_id in career_matched`,
so it is embedded as its membership test): for some goal, either the
normalised goal hits the career index directly, or it is in a substring
relation (either direction) with an indexed key, or some catalog course
with this id has a career tag containing the goal. -/
def match_career_goals (sel : Selector) (career_goals : List String) (id : String) : Bool :=
  career_goals.any fun goal =>
    let g := pyNorm goal
    (mapFind sel.career_goal_mapping g).contains id
    || sel.career_goal_mapping.any
        (fun kv => (pyContains kv.1 g || pyContains g kv.1) && kv.2.contains id)
    || sel.courses.any
        (fun c => c.course_id == id
          && c.career_relevance.any (fun cr => pyContains (pyLower cr) g))

/-- The static keyword-expansion table of `_match_preferred_subjects`,
transcribed verbatim (note the upper-case `AI`, matched against lower-cased
text exactly as in the source). -/
def subject_keywords : List (String × List String) :=
  [("business", ["business", "management", "marketing", "finance", "accounting",
      "economics", "entrepreneurship", "commerce", "strategy", "leadership"]),
   ("computer science", ["programming", "software", "algorithm", "data structure",
      "coding", "development", "computation", "computer systems", "networking"]),
   ("data science", ["data", "statistics", "analysis", "machine learning",
      "analytics", "visualization", "data mining", "big data", "AI"]),
   ("mathematics", ["calculus", "algebra", "geometry", "trigonometry",
      "probability", "statistics", "mathematical reasoning", "number theory"]),
   ("physics", ["mechanics", "optics", "thermodynamics", "quantum mechanics",
      "relativity", "astrophysics", "electrodynamics", "nuclear physics"]),
   ("biology", ["genetics", "evolution", "molecular biology", "cell biology",
      "ecology", "anatomy", "physiology", "biochemistry"]),
   ("chemistry", ["organic chemistry", "inorganic chemistry", "biochemistry",
      "physical chemistry", "chemical engineering", "laboratory techniques"]),
   ("history", ["ancient history", "modern history", "world wars", "cultural history",
      "political history", "economic history", "historical analysis"]),
   ("psychology", ["cognitive psychology", "behavioral science", "mental health",
      "neuroscience", "developmental psychology", "personality psychology"]),
   ("engineering", ["civil engineering", "mechanical engineering",
      "electrical engineering", "chemical engineering", "robotics", "design"]),
   ("music", ["music theory", "notation", "composition", "performance",
      "classical music", "instrumentation", "genres", "orchestration"]),
   ("philosophy", ["ethics", "logic", "epistemology", "metaphysics",
      "existentialism", "aesthetics", "philosophical analysis"]),
   ("art", ["painting", "sculpture", "digital art", "art history",
      "visual arts", "design", "illustration"]),
   ("astronomy", ["stars", "galaxies", "cosmology", "telescopes",
      "space exploration", "astrophysics", "solar system", "black holes"])]

/-- Membership in the set returned by `CourseSelector._match_preferred_subjects`:
a direct hit in the skill index, or a keyword of the expansion table
occurring in the course title, department or description (keywords used
verbatim against lower-cased text, as in the source), or a substring
relation with an indexed skill key. -/
def match_preferred_subjects (sel : Selector) (preferred_subjects : List String) (id : String) : Bool :=
  preferred_subjects.any fun subject =>
    let s := pyNorm subject
    (mapFind sel.subject_mapping s).contains id
    || (match subject_keywords.find? (fun kv => kv.1 == s) with
        | some kv =>
          kv.2.any fun kw =>
            sel.courses.any fun c =>
              c.course_id == id
                && (pyContains (pyLower c.title) kw
                    || pyContains (pyLower c.department) kw
                    || pyContains (pyLower c.description) kw)
        | none => false)
    || sel.subject_mapping.any
        (fun kv => (pyContains kv.1 s || pyContains s kv.1) && kv.2.contains id)

/-- The relevance score computed inside `rank_courses_by_relevance`:
+5 on a career match, +3 on a subject match, plus the unconditional
level bonus `min(course.level / 100, 4) / 2`. -/
def pyScore (sel : Selector) (career_goals preferred_subjects : List String) (c : Course) : ℚ :=
  (if match_career_goals sel career_goals c.course_id then 5 else 0)
    + (if match_preferred_subjects sel preferred_subjects c.course_id then 3 else 0)
    + min ((c.level : ℚ) / 100) 4 / 2

/-- The scored candidate list built by the loop of `rank_courses_by_relevance`,
in input order: a course contributes a `(course, score)` pair only when its
score is strictly positive. -/
def scoredCourses (sel : Selector) (courses : List Course)
    (career_goals preferred_subjects : List String) : List (Course × ℚ) :=
  courses.filterMap fun c =>
    let score := pyScore sel career_goals preferred_subjects c
    if 0 < score then some (c, score) else none

/-- One step of the stable insertion sort: place `x` before the first
element with a strictly smaller score, after all elements with a greater
or equal score. -/
def insertDesc (x : Course × ℚ) : List (Course × ℚ) → List (Course × ℚ)
  | [] => [x]
  | y :: ys => if y.2 < x.2 then x :: y :: ys else y :: insertDesc x ys

/-- Python's `list.sort(key=lambda x: x[1], reverse=True)`: the stable
descending sort on the score component (stable sorts are extensionally
unique, so the insertion sort is the faithful embedding). -/
def pySortDesc (l : List (Course × ℚ)) : List (Course × ℚ) :=
  l.foldl (fun acc x => insertDesc x acc) []

/-- `CourseSelector.rank_courses_by_relevance`: score the given courses
(keeping only strictly positive scores) and sort descending by score. -/
def rank_courses_by_relevance (sel : Selector) (courses : List Course)
    (career_goals preferred_subjects : List String) : List (Course × ℚ) :=
  pySortDesc (scoredCourses sel courses career_goals preferred_subjects)

/-- One iteration of the first fallback loop of `recommend_courses`: when the
course is not already among the ranked ones, append one `(course, 1.0)` entry
for every preferred subject contained in the department name (the source
appends inside the subject loop, so one entry per matching subject). -/
def fallbackDeptStep (preferred_subjects : List String)
    (acc : List (Course × ℚ)) (c : Course) : List (Course × ℚ) :=
  if acc.any (fun rc => rc.1.course_id == c.course_id) then acc
  else
    acc ++ (preferred_subjects.filter
        (fun s => pyContains (pyLower c.department) (pyLower s))).map (fun _ => (c, (1 : ℚ)))

/-- One iteration of the second fallback loop: for introductory courses
(level at most 200) not already ranked, append one `(course, 0.5)` entry per
preferred subject contained in the title. -/
def fallbackIntroStep (preferred_subjects : List String)
    (acc : List (Course × ℚ)) (c : Course) : List (Course × ℚ) :=
  if acc.any (fun rc => rc.1.course_id == c.course_id) then acc
  else if c.level ≤ 200 then
    acc ++ (preferred_subjects.filter
        (fun s => pyContains (pyLower c.title) (pyLower s))).map (fun _ => (c, (1 : ℚ) / 2))
  else acc

/-- The ranked candidate list of `recommend_courses` just before assembly:
filter out completed courses, rank, widen with the two fallback loops when
fewer candidates than `max_recommendations` exist, then re-sort (stable). -/
def finalRanked (sel : Selector) (career_goals preferred_subjects completed_courses : List String)
    (max_recommendations : ℕ) : List (Course × ℚ) :=
  let eligible := sel.courses.filter (fun c => !(completed_courses.contains c.course_id))
  let ranked := rank_courses_by_relevance sel eligible career_goals preferred_subjects
  let ranked :=
    if ranked.length < max_recommendations then
      let r1 := if preferred_subjects ≠ [] then
          eligible.foldl (fallbackDeptStep preferred_subjects) ranked
        else ranked
      if preferred_subjects ≠ [] ∧ r1.length < max_recommendations then
        eligible.foldl (fallbackIntroStep preferred_subjects) r1
      else r1
    else ranked
  pySortDesc ranked

/-- `CourseSelector._generate_recommendation_reason`: collect reason clauses
(business special case, first matching career goal, first matching subject,
level-based default when nothing matched) and join them with " and ",
appending a final period. -/
def generate_recommendation_reason (c : Course)
    (career_goals preferred_subjects : List String) : String :=
  let reasons : List String := []
  let reasons :=
    if preferred_subjects.any (fun s => pyLower s == "business") then
      if pyContains (pyLower c.department) "business" then
        reasons ++ ["Core business course that will help build your foundation in business"]
      else if c.skills_taught.any (fun sk => pyContains (pyLower sk) "business") then
        reasons ++ ["Teaches business skills that will be valuable for your minor"]
      else if c.career_relevance.any (fun cr => pyContains (pyLower cr) "business") then
        reasons ++ ["Relevant for business career paths"]
      else reasons
    else reasons
  let reasons :=
    match career_goals.find?
        (fun goal => c.career_relevance.any (fun cr => pyContains (pyLower cr) (pyLower goal))) with
    | some goal => reasons ++ ["Aligns with your " ++ goal ++ " career goal"]
    | none => reasons
  let reasons :=
    match preferred_subjects.findSome? (fun subject =>
        if pyContains (pyLower c.title) (pyLower subject) then
          some ("Directly covers " ++ subject ++ " which you\x27re interested in")
        else if c.skills_taught.any (fun sk => pyContains (pyLower sk) (pyLower subject)) then
          some ("Teaches skills in " ++ subject ++ " which match your interests")
        else none) with
    | some r => reasons ++ [r]
    | none => reasons
  let reasons :=
    if reasons.isEmpty then
      [if c.level < 200 then "This introductory course provides a strong foundation"
       else if c.level < 300 then "This intermediate course develops important skills"
       else "This advanced course explores specialized topics"]
    else reasons
  String.intercalate " and " reasons ++ "."

/-- The formatted record appended for a selected course. -/
def mkFRec (career_goals preferred_subjects : List String) (c : Course) : FRec :=
  ⟨c.course_id, c.title, c.credits,
    generate_recommendation_reason c career_goals preferred_subjects⟩

/-- The greedy assembly loop of `recommend_courses`: walk the ranked list,
skip (continue) any course that would push the running total over
`max_credits`, append the rest, and stop once `max_recommendations` records
have been collected (the count check runs after the append, as in the source). -/
def assemble (career_goals preferred_subjects : List String) (max_credits max_recommendations : ℕ) :
    List (Course × ℚ) → ℕ → List FRec → List FRec
  | [], _, recs => recs
  | (c, _) :: rest, total, recs =>
    if max_credits < total + c.credits then
      assemble career_goals preferred_subjects max_credits max_recommendations rest total recs
    else
      let recs2 := recs ++ [mkFRec career_goals preferred_subjects c]
      if max_recommendations ≤ recs2.length then recs2
      else
        assemble career_goals preferred_subjects max_credits max_recommendations rest
          (total + c.credits) recs2

/-- `CourseSelector.recommend_courses` (the `current_semester`,
`enrollment_status` and `min_credits` parameters are unused in the source
body and therefore omitted). -/
def recommend_courses (sel : Selector)
    (career_goals preferred_subjects completed_courses : List String)
    (max_credits : ℕ) (max_recommendations : ℕ) : List FRec :=
  assemble career_goals preferred_subjects max_credits max_recommendations
    (finalRanked sel career_goals preferred_subjects completed_courses max_recommendations) 0 []

/-- Total credits of a formatted recommendation list. -/
def fRecCredits (l : List FRec) : ℕ :=
  (l.map (fun r => r.credits)).sum

/-- Modelled from the spec (claim side of C4, for the refinement comparison
only): the claimed additive score, with a separate +2 component when the
title or description directly contains a preferred-subject substring. -/
def claimedScore (sel : Selector) (career_goals preferred_subjects : List String) (c : Course) : ℚ :=
  (if match_career_goals sel career_goals c.course_id then 5 else 0)
    + (if match_preferred_subjects sel preferred_subjects c.course_id then 3 else 0)
    + (if preferred_subjects.any (fun s =>
          pyContains (pyLower c.title) (pyLower s)
            || pyContains (pyLower c.description) (pyLower s)) then 2 else 0)
    + min ((c.level : ℚ) / 100) 4 / 2

/-- The broadening loop of `get_candidate_courses_for_interest`: append
description matches not already collected, stopping at 20 candidates. -/
def broadenCandidates (interest_lower : String) :
    List Course → List Course → List Course
  | [], acc => acc
  | c :: cs, acc =>
    if !(acc.contains c) && pyContains (pyLower c.description) interest_lower then
      let acc2 := acc ++ [c]
      if 20 ≤ acc2.length then acc2 else broadenCandidates interest_lower cs acc2
    else broadenCandidates interest_lower cs acc

/-- `CourseSelector.get_candidate_courses_for_interest`: the source builds a
local `candidates` list (department/title/skill/career matches, broadened
with description matches when below 15) but has no return statement, so the
Python function always returns `None`. -/
def get_candidate_courses_for_interest (sel : Selector) (interest : String) :
    Option (List Course) :=
  let interest_lower := pyLower interest
  let candidates := sel.courses.filter fun c =>
    pyContains (pyLower c.department) interest_lower
      || pyContains (pyLower c.title) interest_lower
      || c.skills_taught.any (fun sk => pyContains (pyLower sk) interest_lower)
      || c.career_relevance.any (fun cr => pyContains (pyLower cr) interest_lower)
  let _ :=
    if candidates.length < 15 then broadenCandidates interest_lower sel.courses candidates
    else candidates
  none

/-- The extracted-signal dictionary consumed by
`CourseRecommendationAPI.generate_recommendations`: either the empty dict
`{}` (produced when extraction throws) or a dict carrying the
`career_goals` and `preferred_subjects` lists (as `process_student_input`
always returns; the unused `time_constraints` entry is omitted). -/
inductive ExtractedInfo where
  | absent
  | present (career_goals preferred_subjects : List String)
  deriving DecidableEq, Repr

/-- `extracted_info.get('career_goals', [])`. -/
def goalsOf : ExtractedInfo → List String
  | .absent => []
  | .present gs _ => gs

/-- `extracted_info.get('preferred_subjects', [])`. -/
def subjectsOf : ExtractedInfo → List String
  | .absent => []
  | .present _ ss => ss

/-- The primary-interest expression of `generate_recommendations`:
`extracted_info.get('career_goals', [None])[0] or
 extracted_info.get('preferred_subjects', [None])[0] or 'general'`.
On the empty dict the `[None]` defaults make both operands falsy and the
result is `"general"`; when a key is present with an empty list the `[0]`
raises `IndexError` (the `.error` case), which the enclosing handler later
catches; otherwise the first element is taken verbatim, falling through on
the empty string (falsy). -/
def pyPrimaryInterest : ExtractedInfo → Except Unit String
  | .absent => .ok "general"
  | .present career_goals preferred_subjects =>
    match career_goals with
    | [] => .error ()
    | g :: _ =>
      if g ≠ "" then .ok g
      else
        match preferred_subjects with
        | [] => .error ()
        | s :: _ => if s ≠ "" then .ok s else .ok "general"

/-- Modelled from the spec (claim side of C5, for the refinement comparison
only): the lower-cased first non-empty career goal, else the first
preferred subject, else the literal fallback key. -/
def claimedPrimaryInterest (career_goals preferred_subjects : List String) : String :=
  match career_goals.find? (fun g => g != "") with
  | some g => pyLower g
  | none =>
    match preferred_subjects with
    | s :: _ => pyLower s
    | [] => "general"

/-- The per-course score of `_generate_smart_recommendations`: +3 per term
matching a career tag, +2 per term matching a skill, +1 per term contained
in title or description. -/
def smartScore (c : Course) (search_terms : List String) : ℕ :=
  search_terms.foldl
    (fun acc term =>
      let t := pyLower term
      acc + (if c.career_relevance.any (fun cr => pyContains (pyLower cr) t) then 3 else 0)
        + (if c.skills_taught.any (fun sk => pyContains (pyLower sk) t) then 2 else 0)
        + (if pyContains (pyLower c.title) t || pyContains (pyLower c.description) t then 1 else 0))
    0

/-- The level loop of `_generate_general_recommendations`: up to two courses
from each of levels 100/200/300, stopping once five are collected. -/
def generalLevelsLoop (sel : Selector) : List ℕ → List Course → List Course
  | [], acc => acc
  | l :: ls, acc =>
    let acc2 := acc ++ (sel.courses.filter (fun c => c.level == l)).take 2
    if 5 ≤ acc2.length then acc2 else generalLevelsLoop sel ls acc2

/-- `CourseRecommendationAPI._generate_general_recommendations`: the level
spread, backfilled from catalog order when below five, truncated to five. -/
def generalRecommendations (sel : Selector) : List Course :=
  let g := generalLevelsLoop sel [100, 200, 300] []
  let g := if g.length < 5 then g ++ sel.courses.take (5 - g.length) else g
  g.take 5

/-- `CourseRecommendationAPI._generate_smart_recommendations`, with its
Python-level failure made explicit: `Course` is a plain `@dataclass`
(`eq=True`, `frozen=False`), hence unhashable, so the first execution of
`course_scores[course] = score` — reached exactly when some catalog course
has a positive score — raises `TypeError`.  With no search terms, or when
no course scores positive, the general recommendations are returned
(`recommended_courses or self._generate_general_recommendations()`). -/
def smartRecommendations (sel : Selector) (info : ExtractedInfo) :
    Except Unit (List Course) :=
  let search_terms := goalsOf info ++ subjectsOf info
  if search_terms.isEmpty then .ok (generalRecommendations sel)
  else if sel.courses.any (fun c => 0 < smartScore c search_terms) then .error ()
  else .ok (generalRecommendations sel)

/-- `CourseRecommendationAPI._generate_recommendation_reason` (the app-level
variant, no trailing period): first matching career goal, else first
matching subject, else the generic fallback sentence. -/
def appReason (c : Course) (info : ExtractedInfo) : String :=
  match (goalsOf info).find?
      (fun goal => c.career_relevance.any (fun cr => pyContains (pyLower cr) (pyLower goal))) with
  | some goal => "Aligns with your " ++ goal ++ " career goal"
  | none =>
    match (subjectsOf info).find? (fun subject =>
        pyContains (pyLower c.title) (pyLower subject)
          || pyContains (pyLower c.description) (pyLower subject)
          || c.skills_taught.any (fun sk => pyContains (pyLower sk) (pyLower subject))) with
    | some subject => "Matches your interest in " ++ subject
    | none => "Recommended based on your academic interests"

/-- The formatted record built in `generate_recommendations`. -/
def fmtCourse (info : ExtractedInfo) (c : Course) : FRec :=
  ⟨c.course_id, c.title, c.credits, appReason c info⟩

/-- `CourseRecommendationCache._cache.get(key)`. -/
def cacheFind (cache : List (String × List FRec)) (key : String) : Option (List FRec) :=
  (cache.find? (fun e => e.1 == key)).map (fun e => e.2)

/-- `CourseRecommendationCache.cache_recommendations`: store under the key,
overwriting any prior entry. -/
def cacheStore (cache : List (String × List FRec)) (key : String) (v : List FRec) :
    List (String × List FRec) :=
  if cache.any (fun e => e.1 == key) then
    cache.map (fun e => if e.1 == key then (key, v) else e)
  else cache ++ [(key, v)]

/-- The recommendation payload of a `generate_recommendations` result:
either formatted records (cache hit or successful pipeline) or the raw
course objects returned by the exception handler's general fallback. -/
inductive RecsOut where
  | formatted (l : List FRec)
  | raw (l : List Course)
  deriving DecidableEq, Repr

/-- The observable output of `generate_recommendations`: the
recommendations and the reported total credits. -/
structure GenOut where
  recs : RecsOut
  total_credits : ℕ
  deriving DecidableEq, Repr

/-- `CourseRecommendationAPI.generate_recommendations`, as a function of the
selector state, the cache state and the already-extracted signals.  Returns
the output, the new cache state, and whether the cache-hit branch was taken.
The two raising points inside the `try` body — `IndexError` from the
primary-interest expression and `TypeError` from `_generate_smart_recommendations`
— fall to the `except` handler, which returns the raw general
recommendations with `total_credits = 0` and leaves the cache untouched. -/
def generate_recommendations (sel : Selector) (cache : List (String × List FRec))
    (info : ExtractedInfo) : GenOut × List (String × List FRec) × Bool :=
  match pyPrimaryInterest info with
  | .error _ => (⟨.raw (generalRecommendations sel), 0⟩, cache, false)
  | .ok key =>
    match cacheFind cache key with
    | some (r :: rs) =>
      (⟨.formatted (r :: rs), fRecCredits (r :: rs)⟩, cache, true)
    | _ =>
      match smartRecommendations sel info with
      | .error _ => (⟨.raw (generalRecommendations sel), 0⟩, cache, false)
      | .ok courses =>
        let f := courses.map (fmtCourse info)
        (⟨.formatted f, fRecCredits f⟩, cacheStore cache key f, false)

deriving instance DecidableEq for Except

/-- A course with no career tags, no skills, and text matching nothing of
interest: its only score contribution is the level bonus. -/
def courseA : Course :=
  { course_id := "A1", title := "T", description := "", credits := 3,
    department := "D", level := 100, skills_taught := [], career_relevance := [] }

/-- Catalog holding only `courseA`. -/
def selA : Selector := mkSelector [courseA]

/-- A course whose title directly contains the preferred subject
"Quantum Basketry" while none of the three index passes match it. -/
def courseQ : Course :=
  { course_id := "Q1", title := "Quantum Basketry", description := "", credits := 3,
    department := "D", level := 100, skills_taught := [], career_relevance := [] }

/-- Catalog holding only `courseQ`. -/
def selQ : Selector := mkSelector [courseQ]

/-- A zero-level course whose title contains "history": it scores zero in the
main pass (no matches, level bonus 0) and is appended by the second fallback. -/
def courseB : Course :=
  { course_id := "B1", title := "history of art", description := "", credits := 3,
    department := "X", level := 0, skills_taught := [], career_relevance := [] }

/-- A level-100 course matching nothing: its score is the 0.5 level bonus. -/
def courseCalc : Course :=
  { course_id := "A1", title := "Calculus", description := "", credits := 3,
    department := "Math", level := 100, skills_taught := [], career_relevance := [] }

/-- Catalog with `courseB` inserted before `courseCalc`. -/
def selHist : Selector := mkSelector [courseB, courseCalc]

/-- CS101 of the spec's concrete scenario. -/
def cs101 : Course :=
  { course_id := "CS101", title := "Intro CS", description := "", credits := 3,
    department := "Computer Science", level := 100, skills_taught := [], career_relevance := [] }

/-- CS240 of the spec's concrete scenario. -/
def cs240 : Course :=
  { course_id := "CS240", title := "Data Structures", description := "", credits := 4,
    department := "Computer Science", level := 200, skills_taught := [],
    career_relevance := ["Software Engineering"] }

/-- The two-course catalog of the spec's concrete scenario. -/
def selC8 : Selector := mkSelector [cs101, cs240]

/-- A course matching no search term "X", used to exercise the caching path. -/
def courseW : Course :=
  { course_id := "W1", title := "T", description := "", credits := 2,
    department := "D", level := 100, skills_taught := [], career_relevance := [] }

/-- Catalog holding only `courseW`. -/
def selW : Selector := mkSelector [courseW]

/-- Signals whose only career goal is "X". -/
def infoX : ExtractedInfo := .present ["X"] []

theorem mem_insertDesc {x a : Course × ℚ} {l : List (Course × ℚ)} :
    a ∈ insertDesc x l ↔ a = x ∨ a ∈ l := by
  induction l with
  | nil => simp [insertDesc]
  | cons y ys ih =>
    by_cases h : y.2 < x.2
    · rw [insertDesc, if_pos h]
      simp [List.mem_cons]
    · rw [insertDesc, if_neg h]
      simp only [List.mem_cons, ih]
      tauto

theorem mem_foldl_insertDesc (a : Course × ℚ) :
    ∀ (l acc : List (Course × ℚ)),
      a ∈ l.foldl (fun acc x => insertDesc x acc) acc ↔ a ∈ acc ∨ a ∈ l := by
  intro l
  induction l with
  | nil => simp
  | cons x xs ih =>
    intro acc
    rw [List.foldl_cons, ih, mem_insertDesc]
    simp only [List.mem_cons]
    tauto

theorem mem_pySortDesc {a : Course × ℚ} {l : List (Course × ℚ)} :
    a ∈ pySortDesc l ↔ a ∈ l := by
  rw [pySortDesc, mem_foldl_insertDesc]
  simp

theorem pairwise_insertDesc {x : Course × ℚ} {l : List (Course × ℚ)}
    (h : List.Pairwise (fun p q => q.2 ≤ p.2) l) :
    List.Pairwise (fun p q => q.2 ≤ p.2) (insertDesc x l) := by
  induction l with
  | nil => simp [insertDesc]
  | cons y ys ih =>
    rcases List.pairwise_cons.1 h with ⟨hy, hys⟩
    by_cases hlt : y.2 < x.2
    · rw [insertDesc, if_pos hlt]
      refine List.pairwise_cons.2 ⟨?_, h⟩
      intro b hb
      rcases List.mem_cons.1 hb with rfl | hb
      · exact le_of_lt hlt
      · exact le_trans (hy b hb) (le_of_lt hlt)
    · rw [insertDesc, if_neg hlt]
      refine List.pairwise_cons.2 ⟨?_, ih hys⟩
      intro b hb
      rcases mem_insertDesc.1 hb with rfl | hb
      · exact le_of_not_lt hlt
      · exact hy b hb

theorem filter_insertDesc (q : ℚ) (x : Course × ℚ) (l : List (Course × ℚ))
    (h : List.Pairwise (fun p q2 => q2.2 ≤ p.2) l) :
    (insertDesc x l).filter (fun p => p.2 = q) =
      if x.2 = q then l.filter (fun p => p.2 = q) ++ [x]
      else l.filter (fun p => p.2 = q) := by
  induction l with
  | nil =>
    by_cases hx : x.2 = q <;> simp [insertDesc, List.filter, hx]
  | cons y ys ih =>
    rcases List.pairwise_cons.1 h with ⟨hy, hys⟩
    by_cases hlt : y.2 < x.2
    · rw [insertDesc, if_pos hlt]
      by_cases hx : x.2 = q
      · have hnil : (y :: ys).filter (fun p => decide (p.2 = q)) = [] := by
          rw [List.filter_eq_nil_iff]
          intro b hb
          simp only [decide_eq_true_eq]
          intro hbq
          rcases List.mem_cons.1 hb with rfl | hb
          · have h3 : b.2 < q := by rw [← hx]; exact hlt
            rw [hbq] at h3
            exact lt_irrefl q h3
          · have h1 : b.2 ≤ y.2 := hy b hb
            have h3 : b.2 < q := by rw [← hx]; exact lt_of_le_of_lt h1 hlt
            rw [hbq] at h3
            exact lt_irrefl q h3
        rw [if_pos hx]
        rw [List.filter_cons_of_pos (by simpa using hx), hnil]
        simp
      · rw [if_neg hx]
        rw [List.filter_cons_of_neg (by simpa using hx)]
    · rw [insertDesc, if_neg hlt]
      by_cases hyq : y.2 = q
      · rw [List.filter_cons_of_pos (by simpa using hyq),
          List.filter_cons_of_pos (by simpa using hyq), ih hys]
        by_cases hx : x.2 = q <;> simp [hx]
      · rw [List.filter_cons_of_neg (by simpa using hyq),
          List.filter_cons_of_neg (by simpa using hyq), ih hys]

theorem pairwise_foldl_insertDesc :
    ∀ (l acc : List (Course × ℚ)),
      List.Pairwise (fun p q => q.2 ≤ p.2) acc →
      List.Pairwise (fun p q => q.2 ≤ p.2)
        (l.foldl (fun acc x => insertDesc x acc) acc) := by
  intro l
  induction l with
  | nil => intro acc h; simpa using h
  | cons x xs ih =>
    intro acc h
    rw [List.foldl_cons]
    exact ih _ (pairwise_insertDesc h)

theorem filter_foldl_insertDesc (q : ℚ) :
    ∀ (l acc : List (Course × ℚ)),
      List.Pairwise (fun p q2 => q2.2 ≤ p.2) acc →
      (l.foldl (fun acc x => insertDesc x acc) acc).filter (fun p => p.2 = q) =
        acc.filter (fun p => p.2 = q) ++ l.filter (fun p => p.2 = q) := by
  intro l
  induction l with
  | nil => intro acc h; simp
  | cons x xs ih =>
    intro acc h
    rw [List.foldl_cons, ih _ (pairwise_insertDesc h), filter_insertDesc q x acc h]
    by_cases hx : x.2 = q
    · rw [if_pos hx, List.filter_cons_of_pos (by simpa using hx)]
      simp
    · rw [if_neg hx, List.filter_cons_of_neg (by simpa using hx)]

/-- Stability of the embedded Python sort: the courses carrying any fixed
score appear in the sorted output exactly in their input order. -/
theorem pySortDesc_filter (q : ℚ) (l : List (Course × ℚ)) :
    (pySortDesc l).filter (fun p => p.2 = q) = l.filter (fun p => p.2 = q) := by
  rw [pySortDesc, filter_foldl_insertDesc q l [] (by simp)]
  simp

theorem mem_scoredCourses {sel : Selector} {courses : List Course}
    {career_goals preferred_subjects : List String} {c : Course} {s : ℚ} :
    (c, s) ∈ scoredCourses sel courses career_goals preferred_subjects ↔
      c ∈ courses ∧ 0 < pyScore sel career_goals preferred_subjects c
        ∧ s = pyScore sel career_goals preferred_subjects c := by
  rw [scoredCourses, List.mem_filterMap]
  constructor
  · rintro ⟨a, ha, hfa⟩
    by_cases hpos : 0 < pyScore sel career_goals preferred_subjects a
    · rw [if_pos hpos] at hfa
      simp only [Option.some.injEq, Prod.mk.injEq] at hfa
      obtain ⟨rfl, rfl⟩ := hfa
      exact ⟨ha, hpos, rfl⟩
    · rw [if_neg hpos] at hfa
      simp at hfa
  · rintro ⟨hc, hpos, rfl⟩
    exact ⟨c, hc, by rw [if_pos hpos]⟩

theorem mem_rank_courses {sel : Selector} {courses : List Course}
    {career_goals preferred_subjects : List String} {c : Course} {s : ℚ} :
    (c, s) ∈ rank_courses_by_relevance sel courses career_goals preferred_subjects ↔
      c ∈ courses ∧ 0 < pyScore sel career_goals preferred_subjects c
        ∧ s = pyScore sel career_goals preferred_subjects c := by
  rw [rank_courses_by_relevance, mem_pySortDesc, mem_scoredCourses]

theorem fallbackDeptStep_subset {preferred_subjects : List String}
    {acc : List (Course × ℚ)} {c : Course} {a : Course × ℚ} (h : a ∈ acc) :
    a ∈ fallbackDeptStep preferred_subjects acc c := by
  rw [fallbackDeptStep]
  by_cases hc : acc.any (fun rc => rc.1.course_id == c.course_id)
  · rw [if_pos hc]; exact h
  · rw [if_neg hc]; exact List.mem_append_left _ h

theorem fallbackIntroStep_subset {preferred_subjects : List String}
    {acc : List (Course × ℚ)} {c : Course} {a : Course × ℚ} (h : a ∈ acc) :
    a ∈ fallbackIntroStep preferred_subjects acc c := by
  rw [fallbackIntroStep]
  by_cases hc : acc.any (fun rc => rc.1.course_id == c.course_id)
  · rw [if_pos hc]; exact h
  · rw [if_neg hc]
    by_cases hl : c.level ≤ 200
    · rw [if_pos hl]; exact List.mem_append_left _ h
    · rw [if_neg hl]; exact h

theorem mem_foldl_fallbackDept {preferred_subjects : List String} {a : Course × ℚ} :
    ∀ (l : List Course) (acc : List (Course × ℚ)), a ∈ acc →
      a ∈ l.foldl (fallbackDeptStep preferred_subjects) acc := by
  intro l
  induction l with
  | nil => intro acc h; simpa using h
  | cons c cs ih =>
    intro acc h
    rw [List.foldl_cons]
    exact ih _ (fallbackDeptStep_subset h)

theorem mem_foldl_fallbackIntro {preferred_subjects : List String} {a : Course × ℚ} :
    ∀ (l : List Course) (acc : List (Course × ℚ)), a ∈ acc →
      a ∈ l.foldl (fallbackIntroStep preferred_subjects) acc := by
  intro l
  induction l with
  | nil => intro acc h; simpa using h
  | cons c cs ih =>
    intro acc h
    rw [List.foldl_cons]
    exact ih _ (fallbackIntroStep_subset h)

/-- Every course of the pre-assembly ranked list survives into `finalRanked`:
the fallback loops only append, and the final sort permutes. -/
theorem mem_finalRanked_of_ranked {sel : Selector}
    {career_goals preferred_subjects completed_courses : List String}
    {max_recommendations : ℕ} {a : Course × ℚ}
    (h : a ∈ rank_courses_by_relevance sel
      (sel.courses.filter (fun c => !(completed_courses.contains c.course_id)))
      career_goals preferred_subjects) :
    a ∈ finalRanked sel career_goals preferred_subjects completed_courses
      max_recommendations := by
  rw [finalRanked, mem_pySortDesc]
  set eligible := sel.courses.filter (fun c => !(completed_courses.contains c.course_id)) with he
  set ranked := rank_courses_by_relevance sel eligible career_goals preferred_subjects with hr
  by_cases h1 : ranked.length < max_recommendations
  · rw [if_pos h1]
    by_cases h2 : preferred_subjects ≠ []
    · rw [if_pos h2]
      set r1 := eligible.foldl (fallbackDeptStep preferred_subjects) ranked with hr1
      have ha1 : a ∈ r1 := mem_foldl_fallbackDept eligible ranked h
      by_cases h3 : preferred_subjects ≠ [] ∧ r1.length < max_recommendations
      · rw [if_pos h3]
        exact mem_foldl_fallbackIntro eligible r1 ha1
      · rw [if_neg h3]; exact ha1
    · rw [if_neg h2]
      by_cases h3 : preferred_subjects ≠ [] ∧ ranked.length < max_recommendations
      · rw [if_pos h3]
        exact mem_foldl_fallbackIntro eligible ranked h
      · rw [if_neg h3]; exact h
  · rw [if_neg h1]; exact h

theorem assemble_credits (career_goals preferred_subjects : List String)
    (max_credits max_recommendations : ℕ) :
    ∀ (l : List (Course × ℚ)) (total : ℕ) (recs : List FRec),
      fRecCredits recs = total → total ≤ max_credits →
      fRecCredits (assemble career_goals preferred_subjects max_credits max_recommendations
        l total recs) ≤ max_credits := by
  intro l
  induction l with
  | nil =>
    intro total recs h1 h2
    rw [assemble]
    omega
  | cons p rest ih =>
    obtain ⟨c, s⟩ := p
    intro total recs h1 h2
    rw [assemble]
    by_cases hov : max_credits < total + c.credits
    · rw [if_pos hov]
      exact ih total recs h1 h2
    · rw [if_neg hov]
      dsimp only
      have hc : fRecCredits (recs ++ [mkFRec career_goals preferred_subjects c])
          = total + c.credits := by
        rw [fRecCredits, List.map_append, List.sum_append, ← fRecCredits, h1]
        rw [mkFRec]
        simp
      by_cases hlen : max_recommendations
          ≤ (recs ++ [mkFRec career_goals preferred_subjects c]).length
      · rw [if_pos hlen, hc]
        omega
      · rw [if_neg hlen]
        exact ih _ _ hc (by omega)

theorem assemble_length (career_goals preferred_subjects : List String)
    (max_credits max_recommendations : ℕ) :
    ∀ (l : List (Course × ℚ)) (total : ℕ) (recs : List FRec),
      recs.length ≤ (assemble career_goals preferred_subjects max_credits max_recommendations
        l total recs).length := by
  intro l
  induction l with
  | nil =>
    intro total recs
    rw [assemble]
  | cons p rest ih =>
    obtain ⟨c, s⟩ := p
    intro total recs
    rw [assemble]
    by_cases hov : max_credits < total + c.credits
    · rw [if_pos hov]
      exact ih total recs
    · rw [if_neg hov]
      dsimp only
      by_cases hlen : max_recommendations
          ≤ (recs ++ [mkFRec career_goals preferred_subjects c]).length
      · rw [if_pos hlen]
        simp
      · rw [if_neg hlen]
        calc recs.length ≤ (recs ++ [mkFRec career_goals preferred_subjects c]).length := by simp
          _ ≤ _ := ih _ _

theorem assemble_ne_nil (career_goals preferred_subjects : List String)
    (max_credits max_recommendations : ℕ) :
    ∀ (l : List (Course × ℚ)) (total : ℕ) (recs : List FRec),
      (∃ p ∈ l, total + p.1.credits ≤ max_credits) →
      assemble career_goals preferred_subjects max_credits max_recommendations l total recs
        ≠ [] := by
  intro l
  induction l with
  | nil =>
    rintro total recs ⟨p, hp, _⟩
    exact absurd hp (List.not_mem_nil p)
  | cons q rest ih =>
    obtain ⟨c, s⟩ := q
    rintro total recs ⟨p, hp, hfit⟩
    rw [assemble]
    by_cases hov : max_credits < total + c.credits
    · rw [if_pos hov]
      rcases List.mem_cons.1 hp with rfl | hp2
      · rw [show ((c, s).1) = c from rfl] at hfit
        exact absurd hfit (by omega)
      · exact ih total recs ⟨p, hp2, hfit⟩
    · rw [if_neg hov]
      dsimp only
      by_cases hlen : max_recommendations
          ≤ (recs ++ [mkFRec career_goals preferred_subjects c]).length
      · rw [if_pos hlen]
        simp
      · rw [if_neg hlen]
        intro hnil
        have h1 := assemble_length career_goals preferred_subjects max_credits
          max_recommendations rest (total + c.credits)
          (recs ++ [mkFRec career_goals preferred_subjects c])
        rw [hnil] at h1
        simp at h1

theorem find_map_store (k : String) (v : List FRec) :
    ∀ (es : List (String × List FRec)), es.any (fun e => e.1 == k) = true →
      (es.map (fun e => if e.1 == k then (k, v) else e)).find? (fun e => e.1 == k)
        = some (k, v) := by
  intro es
  induction es with
  | nil => simp
  | cons e es ih =>
    intro h
    by_cases he : e.1 == k
    · rw [List.map_cons, if_pos he, List.find?_cons_of_pos _ (by simp)]
    · rw [List.map_cons, if_neg he, List.find?_cons_of_neg _ (by simpa using he)]
      simp only [List.any_cons, Bool.or_eq_true] at h
      exact ih (h.resolve_left (by simpa using he))

theorem find_append_of_none {α : Type} (p : α → Bool) :
    ∀ (l1 l2 : List α), l1.find? p = none → (l1 ++ l2).find? p = l2.find? p := by
  intro l1
  induction l1 with
  | nil => simp
  | cons a l ih =>
    intro l2 h
    by_cases ha : p a
    · rw [List.find?_cons_of_pos _ ha] at h
      exact absurd h (by simp)
    · rw [List.find?_cons_of_neg _ ha] at h
      rw [List.cons_append, List.find?_cons_of_neg _ ha]
      exact ih l2 h

theorem cacheFind_cacheStore (cache : List (String × List FRec)) (k : String) (v : List FRec) :
    cacheFind (cacheStore cache k v) k = some v := by
  rw [cacheStore]
  by_cases h : cache.any (fun e => e.1 == k)
  · rw [if_pos h, cacheFind, find_map_store k v cache h]
    rfl
  · rw [if_neg h, cacheFind]
    have hnone : cache.find? (fun e => e.1 == k) = none := by
      rw [List.find?_eq_none]
      intro e he
      intro hek
      exact h (List.any_eq_true.2 ⟨e, he, hek⟩)
    rw [find_append_of_none _ cache [(k, v)] hnone]
    simp

theorem insertDesc_nil (x : Course × ℚ) : insertDesc x [] = [x] := by
  rw [insertDesc]

theorem score_cs240 : pyScore selC8 ["Software Engineering"] [] cs240 = 6 := by
  rw [pyScore]
  rw [show match_career_goals selC8 ["Software Engineering"] cs240.course_id = true from by decide]
  rw [show match_preferred_subjects selC8 [] cs240.course_id = false from by decide]
  norm_num [min_def, cs240]

theorem score_cs101 : pyScore selC8 ["Software Engineering"] [] cs101 = 1 / 2 := by
  rw [pyScore]
  rw [show match_career_goals selC8 ["Software Engineering"] cs101.course_id = false from by decide]
  rw [show match_preferred_subjects selC8 [] cs101.course_id = false from by decide]
  norm_num [min_def, cs101]

theorem scored_c8 : scoredCourses selC8 [cs101, cs240] ["Software Engineering"] [] =
    [(cs101, 1 / 2), (cs240, 6)] := by
  rw [scoredCourses]
  rw [List.filterMap_cons, List.filterMap_cons, List.filterMap_nil]
  dsimp only
  rw [score_cs101, score_cs240]
  rw [if_pos (by norm_num : (0:ℚ) < 1/2), if_pos (by norm_num : (0:ℚ) < 6)]

theorem eligible_c8 : selC8.courses.filter (fun c => !(([] : List String).contains c.course_id))
    = [cs101, cs240] := by decide

theorem ranked_c8 : rank_courses_by_relevance selC8 [cs101, cs240] ["Software Engineering"] []
    = [(cs240, 6), (cs101, 1 / 2)] := by
  rw [rank_courses_by_relevance, scored_c8]
  rw [pySortDesc, List.foldl_cons, List.foldl_cons, List.foldl_nil]
  rw [insertDesc_nil, insertDesc,
    if_pos (by norm_num : ((cs101, (1:ℚ)/2).2 < ((cs240, (6:ℚ))).2))]

theorem finalRanked_c8 : finalRanked selC8 ["Software Engineering"] [] [] 5
    = [(cs240, 6), (cs101, 1 / 2)] := by
  rw [finalRanked]
  dsimp only
  rw [eligible_c8, ranked_c8]
  rw [if_pos (by norm_num)]
  rw [if_neg (by simp)]
  rw [if_neg (by simp)]
  rw [pySortDesc, List.foldl_cons, List.foldl_cons, List.foldl_nil]
  rw [insertDesc_nil, insertDesc,
    if_neg (by norm_num : ¬((cs240, (6:ℚ)).2 < ((cs101, (1:ℚ)/2)).2)), insertDesc_nil]

theorem score_courseA : pyScore selA ["Doctor"] ["Philately"] courseA = 1 / 2 := by
  rw [pyScore]
  rw [show match_career_goals selA ["Doctor"] courseA.course_id = false from by decide]
  rw [show match_preferred_subjects selA ["Philately"] courseA.course_id = false from by decide]
  norm_num [min_def, courseA]

theorem ranked_selA : rank_courses_by_relevance selA [courseA] ["Doctor"] ["Philately"]
    = [(courseA, 1 / 2)] := by
  rw [rank_courses_by_relevance, scoredCourses, List.filterMap_cons, List.filterMap_nil]
  dsimp only
  rw [score_courseA, if_pos (by norm_num : (0:ℚ) < 1/2)]
  rw [pySortDesc, List.foldl_cons, List.foldl_nil, insertDesc_nil]

theorem score_courseQ : pyScore selQ [] ["Quantum Basketry"] courseQ = 1 / 2 := by
  rw [pyScore]
  rw [show match_career_goals selQ [] courseQ.course_id = false from by decide]
  rw [show match_preferred_subjects selQ ["Quantum Basketry"] courseQ.course_id = false from by decide]
  norm_num [min_def, courseQ]

theorem ranked_selQ : rank_courses_by_relevance selQ [courseQ] [] ["Quantum Basketry"]
    = [(courseQ, 1 / 2)] := by
  rw [rank_courses_by_relevance, scoredCourses, List.filterMap_cons, List.filterMap_nil]
  dsimp only
  rw [score_courseQ, if_pos (by norm_num : (0:ℚ) < 1/2)]
  rw [pySortDesc, List.foldl_cons, List.foldl_nil, insertDesc_nil]

theorem claimed_courseQ : claimedScore selQ [] ["Quantum Basketry"] courseQ = 5 / 2 := by
  rw [claimedScore]
  rw [show match_career_goals selQ [] courseQ.course_id = false from by decide]
  rw [show match_preferred_subjects selQ ["Quantum Basketry"] courseQ.course_id = false from by decide]
  rw [show (["Quantum Basketry"].any (fun s =>
      pyContains (pyLower courseQ.title) (pyLower s)
        || pyContains (pyLower courseQ.description) (pyLower s))) = true from by decide]
  norm_num [min_def, courseQ]

theorem score_courseCalc : pyScore selHist [] ["history"] courseCalc = 1 / 2 := by
  rw [pyScore]
  rw [show match_career_goals selHist [] courseCalc.course_id = false from by decide]
  rw [show match_preferred_subjects selHist ["history"] courseCalc.course_id = false from by decide]
  norm_num [min_def, courseCalc]

theorem score_courseB : pyScore selHist [] ["history"] courseB = 0 := by
  rw [pyScore]
  rw [show match_career_goals selHist [] courseB.course_id = false from by decide]
  rw [show match_preferred_subjects selHist ["history"] courseB.course_id = false from by decide]
  norm_num [min_def, courseB]

theorem eligible_hist : selHist.courses.filter (fun c => !(([] : List String).contains c.course_id))
    = [courseB, courseCalc] := by decide

theorem ranked_hist : rank_courses_by_relevance selHist [courseB, courseCalc] [] ["history"]
    = [(courseCalc, 1 / 2)] := by
  rw [rank_courses_by_relevance, scoredCourses, List.filterMap_cons, List.filterMap_cons,
    List.filterMap_nil]
  dsimp only
  rw [score_courseB, score_courseCalc]
  rw [if_neg (by norm_num : ¬ ((0:ℚ) < 0)), if_pos (by norm_num : (0:ℚ) < 1/2)]
  rw [pySortDesc, List.foldl_cons, List.foldl_nil, insertDesc_nil]

theorem finalRanked_hist : finalRanked selHist [] ["history"] [] 5
    = [(courseCalc, 1 / 2), (courseB, 1 / 2)] := by
  have h1 : List.foldl (fallbackDeptStep ["history"]) [(courseCalc, (1:ℚ)/2)]
      [courseB, courseCalc] = [(courseCalc, (1:ℚ)/2)] := rfl
  have h2 : List.foldl (fallbackIntroStep ["history"]) [(courseCalc, (1:ℚ)/2)]
      [courseB, courseCalc] = [(courseCalc, (1:ℚ)/2), (courseB, (1:ℚ)/2)] := rfl
  rw [finalRanked]
  dsimp only
  rw [eligible_hist, ranked_hist]
  rw [if_pos (show ([(courseCalc, (1:ℚ)/2)]).length < 5 by norm_num)]
  rw [if_pos (show (["history"] : List String) ≠ [] by simp)]
  rw [h1]
  rw [if_pos (show ((["history"] : List String) ≠ []
    ∧ ([(courseCalc, (1:ℚ)/2)]).length < 5) from ⟨by simp, by norm_num⟩)]
  rw [h2]
  rw [pySortDesc, List.foldl_cons, List.foldl_cons, List.foldl_nil, insertDesc_nil, insertDesc,
    if_neg (by norm_num : ¬((courseCalc, (1:ℚ)/2).2 < (courseB, (1:ℚ)/2).2)), insertDesc_nil]

theorem gen_cache_keys (sel : Selector) (info : ExtractedInfo) (key : String)
    (h : pyPrimaryInterest info = .ok key) :
    ((generate_recommendations sel [] info).2.1).all (fun e => e.1 == key) = true := by
  simp only [generate_recommendations, h]
  rw [show cacheFind [] key = (none : Option (List FRec)) from rfl]
  rcases hs : smartRecommendations sel info with e | courses
  · simp
  · simp only [cacheStore, List.any_nil, Bool.false_eq_true, if_false, List.nil_append]
    simp

/-- C1: for every catalog state, every signal set, completed set,
`max_credits` bound and recommendation cap, the list `recommend_courses`
returns has total credits at most `max_credits`; and a course whose credits
would push the running total over the ceiling is skipped while the walk
continues over the remaining ranked list (the loop `continue`s instead of
stopping). -/
theorem C1_credit_ceiling :
    (∀ (sel : Selector) (gs ss completed : List String) (mc mr : ℕ),
      fRecCredits (recommend_courses sel gs ss completed mc mr) ≤ mc)
    ∧ (∀ (gs ss : List String) (mc mr : ℕ) (c : Course) (s : ℚ)
        (rest : List (Course × ℚ)) (total : ℕ) (recs : List FRec),
        mc < total + c.credits →
        assemble gs ss mc mr ((c, s) :: rest) total recs
          = assemble gs ss mc mr rest total recs) := by
  constructor
  · intro sel gs ss completed mc mr
    rw [recommend_courses]
    exact assemble_credits gs ss mc mr _ 0 [] rfl (Nat.zero_le mc)
  · intro gs ss mc mr c s rest total recs h
    rw [assemble, if_pos h]

/-- C1, witness: the ceiling bound at the concrete two-course catalog with
`max_credits = 7`, and a concrete skipped-course step of the walk
(`max_credits = 2`, course of 3 credits, walk continues over the rest). -/
theorem C1_credit_ceiling_witness :
    fRecCredits (recommend_courses selC8 ["Software Engineering"] [] [] 7 5) ≤ 7
    ∧ assemble [] [] 2 5 [(courseA, 5)] 0 [] = assemble [] [] 2 5 [] 0 [] :=
  ⟨C1_credit_ceiling.1 selC8 ["Software Engineering"] [] [] 7 5,
   C1_credit_ceiling.2 [] [] 2 5 courseA 5 [] 0 [] (by decide)⟩

/-- C2, counterexample: `courseA` matches none of the career goals and none
of the preferred subjects under all passes (both match predicates are
false), yet `rank_courses_by_relevance` returns it with score 1/2 — the
level bonus is added unconditionally, so a zero-match course is not
excluded, contradicting the claim. -/
theorem C2_zero_match_counterexample :
    match_career_goals selA ["Doctor"] courseA.course_id = false
    ∧ match_preferred_subjects selA ["Philately"] courseA.course_id = false
    ∧ rank_courses_by_relevance selA selA.courses ["Doctor"] ["Philately"]
      = [(courseA, 1 / 2)] := by
  refine ⟨by decide, by decide, ?_⟩
  rw [show selA.courses = [courseA] from by decide]
  exact ranked_selA

/-- C2, amended: a course appears in the output of
`rank_courses_by_relevance` exactly when its score is strictly positive.
Because the level bonus `min(level/100, 4)/2` is added unconditionally, a
zero-match course with positive level still scores positively and is
included; only courses whose score is zero (no match and zero level bonus)
are excluded. -/
theorem C2_zero_match_amended (sel : Selector) (courses : List Course)
    (gs ss : List String) (c : Course) :
    (∃ s, (c, s) ∈ rank_courses_by_relevance sel courses gs ss)
      ↔ (c ∈ courses ∧ 0 < pyScore sel gs ss c) := by
  constructor
  · rintro ⟨s, hs⟩
    have h := mem_rank_courses.1 hs
    exact ⟨h.1, h.2.1⟩
  · rintro ⟨hc, hpos⟩
    exact ⟨pyScore sel gs ss c, mem_rank_courses.2 ⟨hc, hpos, rfl⟩⟩

/-- C3, counterexample: a non-empty catalog whose only course is already
completed yields an empty recommendation list, contradicting the claim that
a non-empty catalog always produces a non-empty output. -/
theorem C3_nonempty_counterexample :
    selA.courses ≠ [] ∧ recommend_courses selA [] [] ["A1"] 18 5 = [] := by
  refine ⟨by decide, by decide⟩

/-- C3, amended: `recommend_courses` (a total function — the embedding
raises nothing) returns a non-empty list whenever some catalog course is
not completed, has positive level (so its unconditional level bonus makes
its score positive) and fits the credit ceiling; an empty result needs an
empty catalog, a fully completed catalog, or no course fitting the bounds. -/
theorem C3_nonempty_amended (sel : Selector) (gs ss completed : List String)
    (mc mr : ℕ) (c : Course)
    (hmem : c ∈ sel.courses) (hcomp : completed.contains c.course_id = false)
    (hlvl : 0 < c.level) (hcred : c.credits ≤ mc) :
    recommend_courses sel gs ss completed mc mr ≠ [] := by
  have hpos : 0 < pyScore sel gs ss c := by
    have hl : (0:ℚ) < (c.level : ℚ) / 100 := by
      have : (0:ℚ) < (c.level : ℚ) := by exact_mod_cast hlvl
      positivity
    have h4 : (0:ℚ) < min ((c.level : ℚ) / 100) 4 := lt_min hl (by norm_num)
    have h3 : (0:ℚ) < min ((c.level : ℚ) / 100) 4 / 2 := by positivity
    have h1 : (0:ℚ) ≤ (if match_career_goals sel gs c.course_id then 5 else 0) := by
      by_cases hb : match_career_goals sel gs c.course_id <;> simp [hb]
    have h2 : (0:ℚ) ≤ (if match_preferred_subjects sel ss c.course_id then 3 else 0) := by
      by_cases hb : match_preferred_subjects sel ss c.course_id <;> simp [hb]
    rw [pyScore]
    have := add_pos_of_nonneg_of_pos (add_nonneg h1 h2) h3
    linarith
  have helig : c ∈ sel.courses.filter (fun c0 => !(completed.contains c0.course_id)) := by
    rw [List.mem_filter]
    exact ⟨hmem, by rw [hcomp]; rfl⟩
  have hrank : (c, pyScore sel gs ss c) ∈ rank_courses_by_relevance sel
      (sel.courses.filter (fun c0 => !(completed.contains c0.course_id))) gs ss :=
    mem_rank_courses.2 ⟨helig, hpos, rfl⟩
  have hfin := @mem_finalRanked_of_ranked sel gs ss completed mr
    (c, pyScore sel gs ss c) hrank
  rw [recommend_courses]
  exact assemble_ne_nil gs ss mc mr _ 0 []
    ⟨(c, pyScore sel gs ss c), hfin, by simpa using hcred⟩

/-- C3, witness: the amended non-emptiness at the concrete two-course
catalog with nothing completed and the default bounds. -/
theorem C3_nonempty_witness : recommend_courses selC8 [] [] [] 18 5 ≠ [] :=
  C3_nonempty_amended selC8 [] [] [] 18 5 cs101
    (by rw [show selC8.courses = [cs101, cs240] from by decide]; exact List.mem_cons_self _ _)
    (by decide) (by decide) (by decide)

/-- C4, counterexample: `courseQ`, whose title directly contains the
preferred subject, scores 1/2 in `rank_courses_by_relevance` (level bonus
only) while the claimed formula with its separate +2 direct-text component
gives 5/2 — the code has no +2 title/description term. -/
theorem C4_score_formula_counterexample :
    rank_courses_by_relevance selQ selQ.courses [] ["Quantum Basketry"] = [(courseQ, 1 / 2)]
    ∧ claimedScore selQ [] ["Quantum Basketry"] courseQ = 5 / 2
    ∧ (1 / 2 : ℚ) ≠ 5 / 2 := by
  refine ⟨?_, claimed_courseQ, by norm_num⟩
  rw [show selQ.courses = [courseQ] from by decide]
  exact ranked_selQ

/-- C4, amended: every score attached by `rank_courses_by_relevance` is
exactly +5 for a career-index match plus +3 for a subject-index match plus
the capped level bonus `min(level/100, 4)/2`; there is no separate +2
component for a direct title/description substring match (direct text only
enters through the keyword-expansion pass of the subject matcher). -/
theorem C4_score_formula_amended (sel : Selector) (courses : List Course)
    (gs ss : List String) (c : Course) (s : ℚ)
    (h : (c, s) ∈ rank_courses_by_relevance sel courses gs ss) :
    s = (if match_career_goals sel gs c.course_id then 5 else 0)
      + (if match_preferred_subjects sel ss c.course_id then 3 else 0)
      + min ((c.level : ℚ) / 100) 4 / 2 :=
  (mem_rank_courses.1 h).2.2

/-- C4, witness: the amended formula evaluated at CS240 in the concrete
scenario, whose ranked score is 6. -/
theorem C4_score_formula_witness :
    (6 : ℚ) = (if match_career_goals selC8 ["Software Engineering"] cs240.course_id then 5 else 0)
      + (if match_preferred_subjects selC8 [] cs240.course_id then 3 else 0)
      + min ((cs240.level : ℚ) / 100) 4 / 2 :=
  C4_score_formula_amended selC8 [cs101, cs240] ["Software Engineering"] [] cs240 6
    (by rw [ranked_c8]; exact List.mem_cons_self _ _)

/-- C5, counterexample: the code takes the first career goal verbatim, with
no lower-casing ("Software Engineering", not "software engineering"), and
when the first career goal is the empty string it falls through to the
subjects instead of scanning for the first non-empty goal ("Art" where the
claim's rule yields "cook"). -/
theorem C5_cache_key_counterexample :
    pyPrimaryInterest (.present ["Software Engineering"] []) = .ok "Software Engineering"
    ∧ claimedPrimaryInterest ["Software Engineering"] [] = "software engineering"
    ∧ "Software Engineering" ≠ "software engineering"
    ∧ pyPrimaryInterest (.present ["", "Cook"] ["Art"]) = .ok "Art"
    ∧ claimedPrimaryInterest ["", "Cook"] ["Art"] = "cook" := by
  decide

/-- C5, amended: the cache key under which `generate_recommendations`
stores is the verbatim (not lower-cased) first career goal when it is
non-empty; otherwise the verbatim first preferred subject when non-empty;
otherwise the literal "general" — later career goals are never consulted.
When a consulted list is present but empty, the `[0]` indexing raises
`IndexError` and the handler returns uncached general recommendations. -/
theorem C5_cache_key_amended (sel : Selector) (g : String) (gs ss : List String) :
    (g ≠ "" → ((generate_recommendations sel [] (.present (g :: gs) ss)).2.1).all
        (fun e => e.1 == g) = true)
    ∧ (∀ s ss2, s ≠ "" → ((generate_recommendations sel [] (.present ("" :: gs) (s :: ss2))).2.1).all
        (fun e => e.1 == s) = true)
    ∧ ((generate_recommendations sel [] (.present ("" :: gs) ("" :: ss))).2.1).all
        (fun e => e.1 == "general") = true
    ∧ generate_recommendations sel [] (.present [] ss)
        = (⟨.raw (generalRecommendations sel), 0⟩, [], false) := by
  refine ⟨?_, ?_, ?_, ?_⟩
  · intro hg
    refine gen_cache_keys sel _ g ?_
    simp only [pyPrimaryInterest]
    rw [if_pos hg]
  · intro s ss2 hs
    refine gen_cache_keys sel _ s ?_
    simp only [pyPrimaryInterest]
    rw [if_neg (show ¬(("" : String) ≠ "") by simp)]
    simp [hs]
  · refine gen_cache_keys sel _ "general" ?_
    rfl
  · rfl

/-- C5, witness: the amended key rule at a concrete non-empty career goal
and at a concrete first-goal-empty fall-through to the subject. -/
theorem C5_cache_key_witness :
    ((generate_recommendations selW [] (.present ["Data Science"] [])).2.1).all
        (fun e => e.1 == "Data Science") = true
    ∧ ((generate_recommendations selW [] (.present [""] ["Art History"])).2.1).all
        (fun e => e.1 == "Art History") = true :=
  ⟨(C5_cache_key_amended selW "Data Science" [] []).1 (by decide),
   (C5_cache_key_amended selW "" [] []).2.1 "Art History" [] (by decide)⟩

/-- C6, counterexample: with an empty catalog and career goal "X", the first
call caches the empty formatted list; the truthiness test on the cached
value treats it as a miss, so the second identical call re-runs the
pipeline (hit flag false) — the output is identical, but the second call is
not served from the cache, contradicting the claim. -/
theorem C6_idempotence_counterexample :
    ((generate_recommendations (mkSelector []) [] infoX).1.recs = .formatted [])
    ∧ ((generate_recommendations (mkSelector [])
        (generate_recommendations (mkSelector []) [] infoX).2.1 infoX).1
      = (generate_recommendations (mkSelector []) [] infoX).1)
    ∧ ((generate_recommendations (mkSelector [])
        (generate_recommendations (mkSelector []) [] infoX).2.1 infoX).2.2 = false) := by
  decide

/-- C6, amended: calling the composed entry point twice with identical
signals and unchanged catalog returns identical output, and the second call
is served from the cache whenever the first call's recommendation payload
is a non-empty formatted list; an empty (or exception-path) result is not
effectively cached and the pipeline re-runs, still deterministically. -/
theorem C6_idempotence_amended (sel : Selector) (cache : List (String × List FRec))
    (info : ExtractedInfo) :
    ((generate_recommendations sel (generate_recommendations sel cache info).2.1 info).1
      = (generate_recommendations sel cache info).1)
    ∧ (∀ r rs, (generate_recommendations sel cache info).1.recs = .formatted (r :: rs) →
        (generate_recommendations sel (generate_recommendations sel cache info).2.1 info).2.2
          = true) := by
  rcases hpi : pyPrimaryInterest info with e | key
  · constructor
    · simp only [generate_recommendations, hpi]
    · intro r rs hfmt
      simp only [generate_recommendations, hpi] at hfmt
      exact absurd hfmt (by simp)
  · rcases hcf : cacheFind cache key with _ | (_ | ⟨r1, rs1⟩)
    · rcases hs : smartRecommendations sel info with e2 | courses
      · constructor
        · simp only [generate_recommendations, hpi, hcf, hs]
        · intro r rs hfmt
          simp only [generate_recommendations, hpi, hcf, hs] at hfmt
          exact absurd hfmt (by simp)
      · rcases hF : courses.map (fmtCourse info) with _ | ⟨r0, rs0⟩
        · constructor
          · simp only [generate_recommendations, hpi, hcf, hs, hF, cacheFind_cacheStore]
          · intro r rs hfmt
            simp only [generate_recommendations, hpi, hcf, hs, hF] at hfmt
            exact absurd hfmt (by simp)
        · constructor
          · simp only [generate_recommendations, hpi, hcf, hs, hF, cacheFind_cacheStore]
          · intro r rs hfmt
            simp only [generate_recommendations, hpi, hcf, hs, hF, cacheFind_cacheStore]
    · rcases hs : smartRecommendations sel info with e2 | courses
      · constructor
        · simp only [generate_recommendations, hpi, hcf, hs]
        · intro r rs hfmt
          simp only [generate_recommendations, hpi, hcf, hs] at hfmt
          exact absurd hfmt (by simp)
      · rcases hF : courses.map (fmtCourse info) with _ | ⟨r0, rs0⟩
        · constructor
          · simp only [generate_recommendations, hpi, hcf, hs, hF, cacheFind_cacheStore]
          · intro r rs hfmt
            simp only [generate_recommendations, hpi, hcf, hs, hF] at hfmt
            exact absurd hfmt (by simp)
        · constructor
          · simp only [generate_recommendations, hpi, hcf, hs, hF, cacheFind_cacheStore]
          · intro r rs hfmt
            simp only [generate_recommendations, hpi, hcf, hs, hF, cacheFind_cacheStore]
    · constructor
      · simp only [generate_recommendations, hpi, hcf]
      · intro r rs hfmt
        simp only [generate_recommendations, hpi, hcf]

/-- C6, witness: at a one-course catalog whose course matches nothing,
the first call caches a non-empty formatted list and the second identical
call returns the same output served from the cache. -/
theorem C6_idempotence_witness :
    ((generate_recommendations selW (generate_recommendations selW [] infoX).2.1 infoX).1
      = (generate_recommendations selW [] infoX).1)
    ∧ ((generate_recommendations selW (generate_recommendations selW [] infoX).2.1 infoX).2.2
      = true) :=
  ⟨(C6_idempotence_amended selW [] infoX).1,
   (C6_idempotence_amended selW [] infoX).2 (fmtCourse infoX courseW)
     [fmtCourse infoX courseW] (by decide)⟩

/-- C7, counterexample: `courseB` (inserted first, score 0 in the main
pass, appended by the intro-level fallback with score 0.5) and `courseCalc`
(inserted second, main-pass score 0.5) carry equal scores in the final
ranked list, yet appear in the output in the order Calc then B — the
opposite of catalog insertion order — because fallback entries are appended
after the ranked list before the final stable sort. -/
theorem C7_tie_order_counterexample :
    selHist.courses.map (fun c => c.course_id) = ["B1", "A1"]
    ∧ courseCalc.course_id = "A1" ∧ courseB.course_id = "B1"
    ∧ finalRanked selHist [] ["history"] [] 5 = [(courseCalc, 1 / 2), (courseB, 1 / 2)]
    ∧ (recommend_courses selHist [] ["history"] [] 18 5).map (fun r => r.course_id)
      = ["A1", "B1"] := by
  refine ⟨by decide, by decide, by decide, finalRanked_hist, ?_⟩
  rw [recommend_courses, finalRanked_hist]
  decide

/-- C7, amended: the main ranking is a stable descending sort, so within
`rank_courses_by_relevance` equal-score courses keep the order of the input
course list (catalog insertion order): filtering the ranked output to any
fixed score gives exactly the input-order scored sublist.  The property
fails for `recommend_courses` only across the fallback widening, whose
entries are appended after the ranked list. -/
theorem C7_tie_order_amended (sel : Selector) (courses : List Course)
    (gs ss : List String) (q : ℚ) :
    (rank_courses_by_relevance sel courses gs ss).filter (fun p => p.2 = q)
      = (scoredCourses sel courses gs ss).filter (fun p => p.2 = q) := by
  rw [rank_courses_by_relevance, pySortDesc_filter]

/-- C8, counterexample: in the spec's concrete scenario the reason attached
to CS240 is "Aligns with your Software Engineering career goal." — the
source appends a final period (`" and ".join(reasons) + "."`), so it is not
exactly the claimed string without the period. -/
theorem C8_scenario_counterexample :
    (recommend_courses selC8 ["Software Engineering"] [] [] 18 5).map (fun r => r.reason)
      = ["Aligns with your Software Engineering career goal.",
         "This introductory course provides a strong foundation."]
    ∧ "Aligns with your Software Engineering career goal."
      ≠ "Aligns with your Software Engineering career goal" := by
  constructor
  · rw [recommend_courses, finalRanked_c8]
    decide
  · decide

/-- C8, amended: in the concrete scenario (CS101 level 100 / 3 credits,
CS240 level 200 / 4 credits with career tag "Software Engineering", career
goal "Software Engineering"), for every `max_credits ≥ 7` the output ranks
CS240 above CS101 and includes both, and CS240's reason is
"Aligns with your Software Engineering career goal." with the trailing
period the source appends. -/
theorem C8_scenario_amended (mc : ℕ) (h : 7 ≤ mc) :
    recommend_courses selC8 ["Software Engineering"] [] [] mc 5 =
      [⟨"CS240", "Data Structures", 4, "Aligns with your Software Engineering career goal."⟩,
       ⟨"CS101", "Intro CS", 3, "This introductory course provides a strong foundation."⟩] := by
  rw [recommend_courses, finalRanked_c8]
  rw [assemble]
  rw [if_neg (show ¬ (mc < 0 + cs240.credits) by
    rw [show cs240.credits = 4 from rfl]; omega)]
  dsimp only
  rw [assemble]
  rw [if_neg (show ¬ (mc < 0 + cs240.credits + cs101.credits) by
    rw [show cs240.credits = 4 from rfl, show cs101.credits = 3 from rfl]; omega)]
  rfl

/-- C8, witness: the amended scenario at the boundary `max_credits = 7`. -/
theorem C8_scenario_witness :
    recommend_courses selC8 ["Software Engineering"] [] [] 7 5 =
      [⟨"CS240", "Data Structures", 4, "Aligns with your Software Engineering career goal."⟩,
       ⟨"CS101", "Intro CS", 3, "This introductory course provides a strong foundation."⟩] :=
  C8_scenario_amended 7 (by decide)

/-- C9: when the cache holds the empty list under the derived key, the
cache-hit branch of `generate_recommendations` is not taken (the truthiness
test fails on an empty list): the hit flag is false and the output equals a
fresh pipeline run with no cache entry at all. -/
theorem C9_empty_cache_is_miss (sel : Selector) (cache : List (String × List FRec))
    (info : ExtractedInfo) (key : String)
    (hpi : pyPrimaryInterest info = .ok key) (hcf : cacheFind cache key = some []) :
    (generate_recommendations sel cache info).2.2 = false
    ∧ (generate_recommendations sel cache info).1 = (generate_recommendations sel [] info).1 := by
  simp only [generate_recommendations, hpi, hcf]
  rw [show cacheFind [] key = (none : Option (List FRec)) from rfl]
  rcases hs : smartRecommendations sel info with e | courses <;> simp

/-- C9, witness: an empty cached list under the key "X" behaves as a miss
at a concrete empty catalog. -/
theorem C9_empty_cache_is_miss_witness :
    (generate_recommendations (mkSelector []) [("X", [])] infoX).2.2 = false
    ∧ (generate_recommendations (mkSelector []) [("X", [])] infoX).1
      = (generate_recommendations (mkSelector []) [] infoX).1 :=
  C9_empty_cache_is_miss (mkSelector []) [("X", [])] infoX "X" (by decide) (by decide)

/-- C10: for every catalog state and interest string,
`get_candidate_courses_for_interest` returns `None` — the function builds
its candidate list but has no return statement, so the list never reaches
the caller. -/
theorem C10_returns_none (sel : Selector) (interest : String) :
    get_candidate_courses_for_interest sel interest = none := rfl
